import Mathlib

/-!
# Entry barrier for compiled methods on AArch64

A shallow embedding of
`src/hotspot/cpu/aarch64/gc/shared/barrierSetNMethod_aarch64.cpp`.

* Memory is byte addressed and little endian, as on AArch64.  Pointers are
  integers; pointer arithmetic is done in `Int` (C++ pointer arithmetic has no
  wrap-around semantics).
* The C++ `int` guard word occupies four bytes, a pointer eight bytes.
* Side effects are made explicit by state passing.  The state also records the
  side-effecting operations in program order of the issuing thread.
* Everything the translation unit only calls (the code-cache record of a
  compiled method, the barrier-set assembler, the stack walker, the shared
  runtime stub, the build flags) is a parameter.
-/

namespace BarrierSetNMethod

/-! ## Memory -/

/-- Byte-addressed memory.  A cell holds an integer of which only the low
eight bits are meaningful. -/
abbrev Memory := Int → Int

/-- The byte stored at address `a`. -/
def read_byte (m : Memory) (a : Int) : Int := m a % 256

/-- Memory after storing the low eight bits of `b` at address `a`. -/
def write_byte (m : Memory) (a b : Int) : Memory :=
  fun x => if x = a then b % 256 else m x

/-- Little-endian load of `n` bytes starting at `a`, as an unsigned number. -/
def load_bytes : Nat → Memory → Int → Int
  | 0, _, _ => 0
  | n + 1, m, a => read_byte m a + 256 * load_bytes n m (a + 1)

/-- Little-endian store of the low `n` bytes of `v` starting at `a`. -/
def store_bytes : Nat → Memory → Int → Int → Memory
  | 0, m, _, _ => m
  | n + 1, m, a, v => store_bytes n (write_byte m a v) (a + 1) (v / 256)

/-- Size in bytes of a C++ `int` and of an AArch64 instruction. -/
def BytesPerInt : Nat := 4

/-- Size in bytes of a pointer (`sizeof(address)`, `sizeof(intptr_t*)`). -/
def wordSize : Nat := 8

/-- The values of the C++ type `int`. -/
def is_int (v : Int) : Prop := -2147483648 ≤ v ∧ v ≤ 2147483647

instance (v : Int) : Decidable (is_int v) :=
  inferInstanceAs (Decidable (-2147483648 ≤ v ∧ v ≤ 2147483647))

/-- The values a 64-bit pointer can take. -/
def is_pointer (v : Int) : Prop := 0 ≤ v ∧ v < 18446744073709551616

instance (v : Int) : Decidable (is_pointer v) :=
  inferInstanceAs (Decidable (0 ≤ v ∧ v < 18446744073709551616))

/-- The values of the C++ type `uint32_t`. -/
def is_uint32 (v : Int) : Prop := 0 ≤ v ∧ v < 4294967296

instance (v : Int) : Decidable (is_uint32 v) :=
  inferInstanceAs (Decidable (0 ≤ v ∧ v < 4294967296))

/-- Two's complement reading of an unsigned 32-bit word as a C++ `int`. -/
def to_int (u : Int) : Int := if u < 2147483648 then u else u - 4294967296

/-! ## State and collaborators -/

/-- Side-effecting operations, recorded in program order. -/
inductive Event where
  /-- One call of `BarrierSetAssembler::increment_patching_epoch`. -/
  | epoch_increment
  /-- One `Atomic::release_store` of an `int` to the given address. -/
  | release_store (addr value : Int)
  /-- One plain store of a pointer-sized value to the given address. -/
  | store_pointer (addr value : Int)
  deriving DecidableEq, Repr

/-- One line written by `log_trace(nmethod, barrier)` in `deoptimize`; of the
logged items it keeps the method, the word read from the return-address slot
and the stack pointer of the caller frame. -/
structure LogLine where
  nm : Int
  return_addr : Int
  making_rsp : Int
  deriving DecidableEq, Repr

/-- The mutable state the translation unit acts on. -/
structure State where
  /-- Process memory: code (guard words, instructions) and thread stacks. -/
  mem : Memory
  /-- The patching epoch owned by the barrier-set assembler. -/
  patching_epoch : Nat
  /-- Side-effecting operations performed so far, oldest first. -/
  trace : List Event
  /-- Lines written to the trace log so far, oldest first. -/
  log : List LogLine

/-- The layout data of a compiled method this file reads from the code cache. -/
structure nmethod where
  /-- Address of the record itself (what an `nmethod*` compares by). -/
  self : Int
  code_begin : Int
  frame_complete_offset : Int
  consts_begin : Int
  is_compiled_by_jvmci : Bool
  /-- The value of `jvmci_nmethod_data()->nmethod_entry_patch_offset()`. -/
  nmethod_entry_patch_offset : Int

/-- Build flags and collaborators of the translation unit. -/
structure VM where
  /-- Whether the file is compiled with `INCLUDE_JVMCI`. -/
  INCLUDE_JVMCI : Bool
  /-- Whether `assert` is compiled in (debug build) or expands to nothing. -/
  ASSERT : Bool
  /-- The value of `bs_asm->nmethod_code_patching()`. -/
  nmethod_code_patching : Bool
  /-- The shared predicate `BarrierSetNMethod::supports_entry_barrier`. -/
  supports_entry_barrier : nmethod → Bool
  /-- The value of `BarrierSetNMethod::disarmed_value()`. -/
  disarmed_value : Int
  /-- The value of `SharedRuntime::get_handle_wrong_method_stub()`. -/
  get_handle_wrong_method_stub : Int
  /-- The text `INTPTR_FORMAT` prints for a pointer-sized integer. -/
  INTPTR_FORMAT : Int → String
  /-- Whether the log target `(Trace, nmethod, barrier)` is enabled. -/
  log_enabled : Bool

/-- Modelled from the spec: `BarrierSetAssembler::increment_patching_epoch` is
not part of this file; the spec describes the patching epoch as a process-wide
monotonically increasing counter with a single advance operation. -/
def increment_patching_epoch (s : State) : State :=
  { s with patching_epoch := s.patching_epoch + 1,
           trace := s.trace ++ [Event.epoch_increment] }

/-- The function `Atomic::load_acquire` on an `int*`. -/
def Atomic.load_acquire (m : Memory) (p : Int) : Int :=
  to_int (load_bytes BytesPerInt m p)

/-- The function `Atomic::release_store` on an `int*`. -/
def Atomic.release_store (p : Int) (value : Int) (s : State) : State :=
  { s with mem := store_bytes BytesPerInt s.mem p value,
           trace := s.trace ++ [Event.release_store p value] }

/-! ## NativeNMethodBarrier -/

/-- The class `NativeNMethodBarrier`. -/
structure NativeNMethodBarrier where
  _instruction_address : Int
  _guard_addr : Int
  _nm : nmethod

/-- The constructor `NativeNMethodBarrier::NativeNMethodBarrier(nmethod*)`. -/
def NativeNMethodBarrier.ctor (vm : VM) (nm : nmethod) :
    NativeNMethodBarrier :=
  if vm.INCLUDE_JVMCI && nm.is_compiled_by_jvmci then
    { _instruction_address := nm.code_begin + nm.frame_complete_offset,
      _guard_addr := nm.consts_begin + nm.nmethod_entry_patch_offset,
      _nm := nm }
  else
    let offsets : Int × Int :=
      if vm.nmethod_code_patching then (-4 * 16, 4 * 15) else (-4 * 11, 4 * 10)
    let entry_barrier_offset := offsets.1
    let guard_offset := offsets.2
    let instruction_address :=
      nm.code_begin + nm.frame_complete_offset + entry_barrier_offset
    { _instruction_address := instruction_address,
      _guard_addr := instruction_address + guard_offset,
      _nm := nm }

/-- The accessor `NativeNMethodBarrier::instruction_address`. -/
def NativeNMethodBarrier.instruction_address (b : NativeNMethodBarrier) : Int :=
  b._instruction_address

/-- The accessor `NativeNMethodBarrier::guard_addr`. -/
def NativeNMethodBarrier.guard_addr (b : NativeNMethodBarrier) : Int :=
  b._guard_addr

/-- The method `NativeNMethodBarrier::get_value`. -/
def NativeNMethodBarrier.get_value (b : NativeNMethodBarrier) (s : State) : Int :=
  Atomic.load_acquire s.mem b.guard_addr

/-- The method `NativeNMethodBarrier::set_value`. -/
def NativeNMethodBarrier.set_value (b : NativeNMethodBarrier) (value : Int)
    (s : State) : State :=
  Atomic.release_store b.guard_addr value s

/-! ## Arming and disarming -/

/-- The function `BarrierSetNMethod::disarm`. -/
def disarm (vm : VM) (nm : nmethod) (s : State) : State :=
  if !vm.supports_entry_barrier nm then
    s
  else
    let s1 := increment_patching_epoch s
    let barrier := NativeNMethodBarrier.ctor vm nm
    barrier.set_value vm.disarmed_value s1

/-- The function `BarrierSetNMethod::arm`. -/
def arm (vm : VM) (nm : nmethod) (arm_value : Int) (s : State) : State :=
  if !vm.supports_entry_barrier nm then
    s
  else
    let s1 := if arm_value = vm.disarmed_value then increment_patching_epoch s else s
    let barrier := NativeNMethodBarrier.ctor vm nm
    barrier.set_value arm_value s1

/-- The function `BarrierSetNMethod::is_armed`. -/
def is_armed (vm : VM) (nm : nmethod) (s : State) : Bool :=
  if !vm.supports_entry_barrier nm then
    false
  else
    let barrier := NativeNMethodBarrier.ctor vm nm
    barrier.get_value s != vm.disarmed_value

/-! ## Verifying the barrier instruction -/

/-- The contents of a `FormatBuffer<>`. -/
abbrev FormatBuffer := String

/-- What `printf` prints for `%x`: lower-case hexadecimal digits, no padding. -/
def format_x (n : Int) : String := String.mk (Nat.toDigits 16 n.toNat)

/-- The conversion `p2i` of a pointer to an integer. -/
def p2i (p : Int) : Int := p

/-- The method `NativeNMethodBarrier::check_barrier`; the second component is
the buffer `msg` after the call. -/
def NativeNMethodBarrier.check_barrier (vm : VM) (b : NativeNMethodBarrier)
    (s : State) (msg : FormatBuffer) : Bool × FormatBuffer :=
  let addr := b.instruction_address
  let inst := load_bytes BytesPerInt s.mem addr
  if inst.toNat &&& 0xff000000 ≠ 0x18000000 then
    (false, "Addr: " ++ vm.INTPTR_FORMAT (p2i addr) ++ " Code: 0x" ++ format_x inst
              ++ " not an ldr")
  else
    (true, msg)

/-- How a call ends: it returns to its caller, or the VM is stopped by a
failed `assert`. -/
inductive Outcome where
  | returned
  | fatal (detail : String)
  deriving DecidableEq, Repr

/-- The method `NativeNMethodBarrier::verify`. -/
def NativeNMethodBarrier.verify (vm : VM) (b : NativeNMethodBarrier) (s : State) :
    Outcome :=
  let msg : FormatBuffer := ""
  let checked := b.check_barrier vm s msg
  if vm.ASSERT && !checked.1 then Outcome.fatal checked.2 else Outcome.returned

/-- The function `BarrierSetNMethod::verify_barrier` (present when the file is
compiled with `INCLUDE_JVMCI`). -/
def verify_barrier (vm : VM) (nm : nmethod) (s : State) (msg : FormatBuffer) :
    Bool × FormatBuffer :=
  let barrier := NativeNMethodBarrier.ctor vm nm
  barrier.check_barrier vm s msg

/-! ## Deoptimization -/

/-- What this file reads of a `frame`. -/
structure frame where
  sp : Int
  fp : Int
  pc : Int
  /-- The code blob owning the frame, as a pointer. -/
  cb : Int
  is_compiled_frame : Bool
  is_native_frame : Bool

/-- What this file reads of the current `JavaThread`. -/
structure JavaThread where
  last_frame : frame
  /-- The result of `frame::sender` on this thread's stack. -/
  sender : frame → frame

/-- A plain store of a pointer-sized value. -/
def store_pointer (p : Int) (value : Int) (s : State) : State :=
  { s with mem := store_bytes wordSize s.mem p value,
           trace := s.trace ++ [Event.store_pointer p value] }

/-- Byte offset of the field `sp` in `frame_pointers_t`. -/
def frame_pointers_t.sp : Int := 0 * wordSize

/-- Byte offset of the field `fp` in `frame_pointers_t`. -/
def frame_pointers_t.fp : Int := 1 * wordSize

/-- Byte offset of the field `lr` in `frame_pointers_t`. -/
def frame_pointers_t.lr : Int := 2 * wordSize

/-- Byte offset of the field `pc` in `frame_pointers_t`. -/
def frame_pointers_t.pc : Int := 3 * wordSize

/-- The function `BarrierSetNMethod::deoptimize`; `return_address_ptr` is an
`address*`, so `return_address_ptr - 5` lies five pointer sizes below it. -/
def deoptimize (vm : VM) (thread : JavaThread) (nm : nmethod)
    (return_address_ptr : Int) (s : State) : Outcome × State :=
  let new_frame := return_address_ptr - 5 * wordSize
  let frame := thread.last_frame
  if vm.ASSERT && !(frame.is_compiled_frame || frame.is_native_frame) then
    (Outcome.fatal "assert(frame.is_compiled_frame() || frame.is_native_frame()) failed: must be", s)
  else if vm.ASSERT && !(frame.cb == nm.self) then
    (Outcome.fatal "assert(frame.cb() == nm) failed: must be", s)
  else
    let frame := thread.sender frame
    let s0 :=
      if vm.log_enabled then
        { s with log := s.log ++
            [LogLine.mk nm.self (load_bytes wordSize s.mem return_address_ptr) frame.sp] }
      else s
    let s1 := store_pointer (new_frame + frame_pointers_t.sp) frame.sp s0
    let s2 := store_pointer (new_frame + frame_pointers_t.fp) frame.fp s1
    let s3 := store_pointer (new_frame + frame_pointers_t.lr) frame.pc s2
    let s4 := store_pointer (new_frame + frame_pointers_t.pc)
      vm.get_handle_wrong_method_stub s3
    (Outcome.returned, s4)

/-! ## Vocabulary for stating properties -/

/-- The side-effecting operations performed between state `s` and a later
state `t`, oldest first. -/
def events_since (s t : State) : List Event := t.trace.drop s.trace.length

/-- Every release store of `sentinel` among `evs` has exactly one epoch
increment before it in `evs`. -/
def sentinel_stores_follow_one_increment (sentinel : Int) (evs : List Event) : Prop :=
  ∀ (i : Nat) (a : Int), evs.get? i = some (Event.release_store a sentinel) →
    (evs.take i).count Event.epoch_increment = 1

/-- The state after the 32-bit word at `addr` has been overwritten with `w`
by something other than the functions of this file. -/
def State.patch_word (s : State) (addr w : Int) : State :=
  { s with mem := store_bytes BytesPerInt s.mem addr w }

/-! ## Concrete inputs -/

/-- An all-zero memory with no recorded effects. -/
def State.zero : State := State.mk (fun _ => 0) 0 [] []

/-- A method compiled by C1 or C2 at address 4096. -/
def nmethod.example : nmethod := nmethod.mk 512 4096 128 8192 false 0

/-- A product build without JVMCI; every method supports the barrier, the
disarmed value is 0. -/
def VM.product : VM :=
  VM.mk false false false (fun _ => true) 0 65536 (fun p => format_x p) false

/-- A debug build with JVMCI in which no method supports the barrier. -/
def VM.debug : VM :=
  VM.mk true true true (fun _ => false) 0 65536 (fun p => format_x p) true

/-- A thread whose top frame is a compiled frame of `nmethod.example`, called
from a frame at stack pointer 3000. -/
def JavaThread.example : JavaThread :=
  JavaThread.mk (frame.mk 2000 2016 4200 512 true false)
    (fun _ => frame.mk 3000 3016 9000 0 false false)

/-- A thread whose top frame is neither compiled nor native and belongs to no
code blob. -/
def JavaThread.interpreted : JavaThread :=
  JavaThread.mk (frame.mk 2000 2016 4200 0 false false)
    (fun _ => frame.mk 3000 3016 9000 0 false false)

/-! ## Memory lemmas -/


theorem store_bytes_outside (n : Nat) (m : Memory) (a v x : Int)
    (h : x < a ∨ a + n ≤ x) : store_bytes n m a v x = m x := by
  induction n generalizing m a v with
  | zero => rfl
  | succ k ih =>
    have hk : x < a + 1 ∨ a + 1 + (k : Int) ≤ x := by
      rcases h with h | h
      · left; omega
      · right; push_cast at h; omega
    have hne : x ≠ a := by
      rcases h with h | h
      · omega
      · push_cast at h; omega
    simp only [store_bytes]
    rw [ih _ _ _ hk]
    simp [write_byte, hne]

theorem load_bytes_congr (n : Nat) (m1 m2 : Memory) (a : Int)
    (h : ∀ x, a ≤ x → x < a + n → m1 x = m2 x) :
    load_bytes n m1 a = load_bytes n m2 a := by
  induction n generalizing a with
  | zero => rfl
  | succ k ih =>
    simp only [load_bytes, read_byte]
    rw [h a (le_refl a) (by push_cast; omega),
      ih (a + 1) (fun x h1 h2 => h x (by omega) (by push_cast; omega))]

theorem emod_split (v k : Int) (hk : 0 < k) :
    v % (k * 256) = v % 256 + 256 * (v / 256 % k) := by
  have h1 : v = 256 * (v / 256) + v % 256 := (Int.ediv_add_emod v 256).symm
  have h2 : v / 256 = k * (v / 256 / k) + v / 256 % k := (Int.ediv_add_emod _ k).symm
  have h3 : 0 ≤ v / 256 % k := Int.emod_nonneg _ (by omega)
  have h4 : v / 256 % k < k := Int.emod_lt_of_pos _ hk
  have h5 : v = (v % 256 + 256 * (v / 256 % k)) + (k * 256) * (v / 256 / k) := by
    set q := v / 256
    set r := v % 256
    set q2 := q / k
    set r2 := q % k
    rw [h1, h2]; ring
  have h6 : 0 ≤ v % 256 + 256 * (v / 256 % k) := by omega
  have h7 : v % 256 + 256 * (v / 256 % k) < k * 256 := by omega
  conv_lhs => rw [h5]
  rw [Int.add_mul_emod_self_left]
  exact Int.emod_eq_of_lt h6 h7

theorem load_bytes_store_bytes_same (n : Nat) (m : Memory) (a v : Int) :
    load_bytes n (store_bytes n m a v) a = v % 256 ^ n := by
  induction n generalizing m a v with
  | zero => simp [load_bytes]
  | succ k ih =>
    simp only [load_bytes, store_bytes, read_byte]
    rw [ih, store_bytes_outside k _ _ _ _ (Or.inl (by omega))]
    simp only [write_byte, if_true, pow_succ]
    rw [emod_split v (256 ^ k) (by positivity)]
    omega

theorem load_bytes_store_bytes_disjoint (k n : Nat) (m : Memory) (a b v : Int)
    (h : b + k ≤ a ∨ a + n ≤ b) :
    load_bytes k (store_bytes n m a v) b = load_bytes k m b := by
  apply load_bytes_congr
  intro x h1 h2
  apply store_bytes_outside
  omega

theorem load_int_store_int (m : Memory) (a v : Int) :
    load_bytes BytesPerInt (store_bytes BytesPerInt m a v) a = v % 4294967296 := by
  rw [load_bytes_store_bytes_same]
  norm_num [BytesPerInt]

theorem load_pointer_store_pointer (m : Memory) (a v : Int) (h : is_pointer v) :
    load_bytes wordSize (store_bytes wordSize m a v) a = v := by
  rw [load_bytes_store_bytes_same]
  unfold is_pointer at h
  have e : (256 : Int) ^ wordSize = 18446744073709551616 := by norm_num [wordSize]
  rw [e]
  omega

theorem to_int_of_is_int (v : Int) (h : is_int v) : to_int (v % 4294967296) = v := by
  unfold is_int at h
  unfold to_int
  split <;> omega

theorem load_acquire_release_store (p v : Int) (s : State) (h : is_int v) :
    Atomic.load_acquire (Atomic.release_store p v s).mem p = v := by
  simp only [Atomic.load_acquire, Atomic.release_store, load_int_store_int]
  exact to_int_of_is_int v h

theorem land_opcode_mask (n : Nat) :
    n &&& 0xff000000 = (n / 16777216 % 256) * 16777216 := by
  apply Nat.eq_of_testBit_eq
  intro i
  have e1 : (0xff000000 : Nat) = (2 ^ 8 - 1) <<< 24 := by decide
  have e2 : (16777216 : Nat) = 2 ^ 24 := by norm_num
  have e3 : (256 : Nat) = 2 ^ 8 := by norm_num
  rw [Nat.testBit_and, e1, e2, e3, Nat.testBit_shiftLeft, Nat.testBit_two_pow_sub_one,
    Nat.mul_comm, Nat.testBit_mul_pow_two, Nat.testBit_mod_two_pow,
    ← Nat.shiftRight_eq_div_pow, Nat.testBit_shiftRight]
  by_cases h : 24 ≤ i
  · have : 24 + (i - 24) = i := by omega
    simp [h, this, Bool.and_comm]
  · simp [h]

theorem ldr_test_iff_top_byte (w : Int) (h : is_uint32 w) :
    w.toNat &&& 0xff000000 = 0x18000000 ↔ w / 16777216 = 24 := by
  unfold is_uint32 at h
  rw [land_opcode_mask]
  omega

/-! ## Arming, disarming, querying -/

theorem events_since_append (s t : State) (evs : List Event)
    (h : t.trace = s.trace ++ evs) : events_since s t = evs := by
  simp [events_since, h]

/-- C1: for a method that supports the entry barrier, any state and any `int`
value `V` other than the disarmed value, after `arm(M, V)` the query
`is_armed(M)` answers true and `get_value` on the barrier located for `M`
reads exactly `V`. -/
theorem arm_then_is_armed (vm : VM) (nm : nmethod) (s : State) (V : Int)
    (hsup : vm.supports_entry_barrier nm = true) (hV : is_int V)
    (hne : V ≠ vm.disarmed_value) :
    is_armed vm nm (arm vm nm V s) = true ∧
    (NativeNMethodBarrier.ctor vm nm).get_value (arm vm nm V s) = V := by
  have hget : (NativeNMethodBarrier.ctor vm nm).get_value (arm vm nm V s) = V := by
    simp only [arm, hsup, hne, NativeNMethodBarrier.get_value,
      NativeNMethodBarrier.set_value, Bool.not_true, if_false, Bool.false_eq_true]
    exact load_acquire_release_store _ V s hV
  refine ⟨?_, hget⟩
  have hget2 := hget
  simp only [is_armed, hsup, Bool.not_true, if_false, Bool.false_eq_true]
  rw [hget2]
  simpa using hne

theorem arm_then_is_armed_witness :
    (VM.product.supports_entry_barrier nmethod.example = true ∧ is_int (-5) ∧
      (-5 : Int) ≠ VM.product.disarmed_value) ∧
    is_armed VM.product nmethod.example (arm VM.product nmethod.example (-5) State.zero) = true ∧
    (NativeNMethodBarrier.ctor VM.product nmethod.example).get_value
      (arm VM.product nmethod.example (-5) State.zero) = -5 :=
  ⟨⟨by decide, by decide, by decide⟩,
    arm_then_is_armed VM.product nmethod.example State.zero (-5)
      (by decide) (by decide) (by decide)⟩

theorem disarm_supported (vm : VM) (nm : nmethod) (s : State)
    (hsup : vm.supports_entry_barrier nm = true) :
    disarm vm nm s =
      Atomic.release_store (NativeNMethodBarrier.ctor vm nm).guard_addr vm.disarmed_value
        (increment_patching_epoch s) := by
  simp [disarm, hsup, NativeNMethodBarrier.set_value]

theorem arm_supported_sentinel (vm : VM) (nm : nmethod) (s : State)
    (hsup : vm.supports_entry_barrier nm = true) :
    arm vm nm vm.disarmed_value s =
      Atomic.release_store (NativeNMethodBarrier.ctor vm nm).guard_addr vm.disarmed_value
        (increment_patching_epoch s) := by
  simp [arm, hsup, NativeNMethodBarrier.set_value]

theorem arm_supported_other (vm : VM) (nm : nmethod) (s : State) (v : Int)
    (hsup : vm.supports_entry_barrier nm = true) (hne : v ≠ vm.disarmed_value) :
    arm vm nm v s =
      Atomic.release_store (NativeNMethodBarrier.ctor vm nm).guard_addr v s := by
  simp [arm, hsup, hne, NativeNMethodBarrier.set_value]

theorem increment_then_store_follows (sentinel g : Int) :
    sentinel_stores_follow_one_increment sentinel
      [Event.epoch_increment, Event.release_store g sentinel] := by
  intro i a h
  match i with
  | 0 => simp at h
  | 1 => simp
  | k + 2 => simp at h

/-- C2: for a method that supports the entry barrier, the operations `disarm(M)`
performs are one increment of the patching epoch followed by the release store
of the disarmed value to the guard, and so are those of `arm(M, v)` with `v`
the disarmed value: the store of the disarmed value has exactly one epoch
increment before it within the call.  With `v` different from the disarmed
value `arm(M, v)` performs the guard store of `v` alone and leaves the epoch as
it was. -/
theorem epoch_increment_precedes_disarming_store (vm : VM) (nm : nmethod) (s : State)
    (hsup : vm.supports_entry_barrier nm = true) :
    (events_since s (disarm vm nm s) =
        [Event.epoch_increment,
         Event.release_store (NativeNMethodBarrier.ctor vm nm).guard_addr vm.disarmed_value] ∧
      sentinel_stores_follow_one_increment vm.disarmed_value (events_since s (disarm vm nm s)) ∧
      (disarm vm nm s).patching_epoch = s.patching_epoch + 1) ∧
    (events_since s (arm vm nm vm.disarmed_value s) =
        [Event.epoch_increment,
         Event.release_store (NativeNMethodBarrier.ctor vm nm).guard_addr vm.disarmed_value] ∧
      sentinel_stores_follow_one_increment vm.disarmed_value
        (events_since s (arm vm nm vm.disarmed_value s)) ∧
      (arm vm nm vm.disarmed_value s).patching_epoch = s.patching_epoch + 1) ∧
    (∀ v : Int, v ≠ vm.disarmed_value →
      events_since s (arm vm nm v s) =
        [Event.release_store (NativeNMethodBarrier.ctor vm nm).guard_addr v] ∧
      (events_since s (arm vm nm v s)).count Event.epoch_increment = 0 ∧
      (arm vm nm v s).patching_epoch = s.patching_epoch) := by
  have hd : events_since s (disarm vm nm s) =
      [Event.epoch_increment,
       Event.release_store (NativeNMethodBarrier.ctor vm nm).guard_addr vm.disarmed_value] := by
    apply events_since_append
    simp [disarm_supported vm nm s hsup, Atomic.release_store, increment_patching_epoch]
  have ha : events_since s (arm vm nm vm.disarmed_value s) =
      [Event.epoch_increment,
       Event.release_store (NativeNMethodBarrier.ctor vm nm).guard_addr vm.disarmed_value] := by
    apply events_since_append
    simp [arm_supported_sentinel vm nm s hsup, Atomic.release_store, increment_patching_epoch]
  refine ⟨⟨hd, ?_, ?_⟩, ⟨ha, ?_, ?_⟩, ?_⟩
  · rw [hd]; exact increment_then_store_follows _ _
  · simp [disarm_supported vm nm s hsup, Atomic.release_store, increment_patching_epoch]
  · rw [ha]; exact increment_then_store_follows _ _
  · simp [arm_supported_sentinel vm nm s hsup, Atomic.release_store, increment_patching_epoch]
  · intro v hv
    have hv2 : events_since s (arm vm nm v s) =
        [Event.release_store (NativeNMethodBarrier.ctor vm nm).guard_addr v] := by
      apply events_since_append
      simp [arm_supported_other vm nm s v hsup hv, Atomic.release_store]
    refine ⟨hv2, ?_, ?_⟩
    · rw [hv2]; simp
    · simp [arm_supported_other vm nm s v hsup hv, Atomic.release_store]

theorem epoch_increment_precedes_disarming_store_witness :
    VM.product.supports_entry_barrier nmethod.example = true ∧
    events_since State.zero (disarm VM.product nmethod.example State.zero) =
      [Event.epoch_increment, Event.release_store 4220 0] ∧
    (disarm VM.product nmethod.example State.zero).patching_epoch = 1 :=
  ⟨by decide,
    (epoch_increment_precedes_disarming_store VM.product nmethod.example State.zero
      (by decide)).1.1,
    (epoch_increment_precedes_disarming_store VM.product nmethod.example State.zero
      (by decide)).1.2.2⟩

/-- C3: for a method that does not support the entry barrier, `arm` with any
value and `disarm` return the state they were given (memory, patching epoch and
recorded operations all unchanged) and `is_armed` answers false in every
state. -/
theorem unsupported_is_noop (vm : VM) (nm : nmethod) (s : State) (v : Int)
    (hsup : vm.supports_entry_barrier nm = false) :
    arm vm nm v s = s ∧ disarm vm nm s = s ∧ is_armed vm nm s = false := by
  simp [arm, disarm, is_armed, hsup]

theorem unsupported_is_noop_witness :
    VM.debug.supports_entry_barrier nmethod.example = false ∧
    arm VM.debug nmethod.example 7 State.zero = State.zero ∧
    disarm VM.debug nmethod.example State.zero = State.zero ∧
    is_armed VM.debug nmethod.example State.zero = false :=
  ⟨by decide, unsupported_is_noop VM.debug nmethod.example State.zero 7 (by decide)⟩

/-- C8: for a method that supports the entry barrier and any prior state,
after two calls of `disarm(M)` in a row (each of which returns) the guard word
reads as the disarmed value and `is_armed(M)` answers false; the same holds
after the first call. -/
theorem disarm_twice (vm : VM) (nm : nmethod) (s : State)
    (hsup : vm.supports_entry_barrier nm = true) (hd : is_int vm.disarmed_value) :
    ((NativeNMethodBarrier.ctor vm nm).get_value (disarm vm nm s) = vm.disarmed_value ∧
      is_armed vm nm (disarm vm nm s) = false) ∧
    ((NativeNMethodBarrier.ctor vm nm).get_value (disarm vm nm (disarm vm nm s)) =
        vm.disarmed_value ∧
      is_armed vm nm (disarm vm nm (disarm vm nm s)) = false) := by
  have key : ∀ t : State,
      (NativeNMethodBarrier.ctor vm nm).get_value (disarm vm nm t) = vm.disarmed_value := by
    intro t
    rw [disarm_supported vm nm t hsup]
    exact load_acquire_release_store _ _ _ hd
  have armed : ∀ t : State, is_armed vm nm (disarm vm nm t) = false := by
    intro t
    simp [is_armed, hsup, key t]
  exact ⟨⟨key s, armed s⟩, ⟨key _, armed _⟩⟩

theorem disarm_twice_witness :
    (VM.product.supports_entry_barrier nmethod.example = true ∧
      is_int VM.product.disarmed_value) ∧
    (NativeNMethodBarrier.ctor VM.product nmethod.example).get_value
        (disarm VM.product nmethod.example
          (disarm VM.product nmethod.example
            (arm VM.product nmethod.example 9 State.zero))) = 0 ∧
    is_armed VM.product nmethod.example
        (disarm VM.product nmethod.example
          (disarm VM.product nmethod.example
            (arm VM.product nmethod.example 9 State.zero))) = false :=
  ⟨⟨by decide, by decide⟩,
    (disarm_twice VM.product nmethod.example (arm VM.product nmethod.example 9 State.zero)
      (by decide) (by decide)).2⟩

/-- C6: for a method that is not handled by the JVMCI branch, the located
instruction address is `code_begin + frame_complete_offset + displacement` and
the guard address is the instruction address plus the guard offset, with
(displacement, guard offset) = (-64, 60) when code patching is active and
(-44, 40) otherwise; two such methods with the same code start and
frame-complete offset under the same flag get the same addresses. -/
theorem locator_fixed_layout (vm : VM) (nm : nmethod)
    (h : vm.INCLUDE_JVMCI = false ∨ nm.is_compiled_by_jvmci = false) :
    ((NativeNMethodBarrier.ctor vm nm).instruction_address =
        nm.code_begin + nm.frame_complete_offset +
          (if vm.nmethod_code_patching = true then -64 else -44) ∧
      (NativeNMethodBarrier.ctor vm nm).guard_addr =
        (NativeNMethodBarrier.ctor vm nm).instruction_address +
          (if vm.nmethod_code_patching = true then 60 else 40)) ∧
    (∀ (vm2 : VM) (nm2 : nmethod),
      (vm2.INCLUDE_JVMCI = false ∨ nm2.is_compiled_by_jvmci = false) →
      nm2.code_begin = nm.code_begin →
      nm2.frame_complete_offset = nm.frame_complete_offset →
      vm2.nmethod_code_patching = vm.nmethod_code_patching →
      (NativeNMethodBarrier.ctor vm2 nm2).instruction_address =
          (NativeNMethodBarrier.ctor vm nm).instruction_address ∧
        (NativeNMethodBarrier.ctor vm2 nm2).guard_addr =
          (NativeNMethodBarrier.ctor vm nm).guard_addr) := by
  have branch : ∀ (vm : VM) (nm : nmethod),
      (vm.INCLUDE_JVMCI = false ∨ nm.is_compiled_by_jvmci = false) →
      (vm.INCLUDE_JVMCI && nm.is_compiled_by_jvmci) = false := by
    intro vm nm h
    rcases h with h | h <;> simp [h]
  have formula : ∀ (vm : VM) (nm : nmethod),
      (vm.INCLUDE_JVMCI = false ∨ nm.is_compiled_by_jvmci = false) →
      (NativeNMethodBarrier.ctor vm nm).instruction_address =
          nm.code_begin + nm.frame_complete_offset +
            (if vm.nmethod_code_patching = true then -64 else -44) ∧
        (NativeNMethodBarrier.ctor vm nm).guard_addr =
          (NativeNMethodBarrier.ctor vm nm).instruction_address +
            (if vm.nmethod_code_patching = true then 60 else 40) := by
    intro vm nm h
    cases hp : vm.nmethod_code_patching <;>
      simp [NativeNMethodBarrier.ctor, NativeNMethodBarrier.instruction_address,
        NativeNMethodBarrier.guard_addr, branch vm nm h, hp]
  refine ⟨formula vm nm h, ?_⟩
  intro vm2 nm2 h2 hc hf hflag
  have f1 := formula vm nm h
  have f2 := formula vm2 nm2 h2
  rw [f1.2, f2.2, f1.1, f2.1, hc, hf, hflag]
  exact ⟨rfl, rfl⟩

theorem locator_fixed_layout_witness :
    (VM.debug.INCLUDE_JVMCI = false ∨ nmethod.example.is_compiled_by_jvmci = false) ∧
    (NativeNMethodBarrier.ctor VM.debug nmethod.example).instruction_address = 4160 ∧
    (NativeNMethodBarrier.ctor VM.debug nmethod.example).guard_addr =
      (NativeNMethodBarrier.ctor VM.debug nmethod.example).instruction_address + 60 :=
  ⟨by decide, (locator_fixed_layout VM.debug nmethod.example (by decide)).1⟩

/-! ## Verifying the barrier instruction -/

theorem load_bytes_range (n : Nat) (m : Memory) (a : Int) :
    0 ≤ load_bytes n m a ∧ load_bytes n m a < 256 ^ n := by
  induction n generalizing a with
  | zero => simp [load_bytes]
  | succ k ih =>
    have h := ih (a + 1)
    simp only [load_bytes, read_byte, pow_succ]
    constructor <;> omega

theorem load_int_is_uint32 (m : Memory) (a : Int) : is_uint32 (load_bytes BytesPerInt m a) := by
  have h := load_bytes_range BytesPerInt m a
  have e : (256 : Int) ^ BytesPerInt = 4294967296 := by norm_num [BytesPerInt]
  rw [e] at h
  exact h

theorem load_patch_word (s : State) (addr w : Int) (h : is_uint32 w) :
    load_bytes BytesPerInt (s.patch_word addr w).mem addr = w := by
  simp only [State.patch_word, load_int_store_int]
  unfold is_uint32 at h
  omega

theorem verify_barrier_eq (vm : VM) (nm : nmethod) (s : State) (msg : FormatBuffer) :
    verify_barrier vm nm s msg =
      if (load_bytes BytesPerInt s.mem
            (NativeNMethodBarrier.ctor vm nm).instruction_address).toNat &&& 0xff000000
          ≠ 0x18000000 then
        (false, "Addr: " ++ vm.INTPTR_FORMAT (NativeNMethodBarrier.ctor vm nm).instruction_address
          ++ " Code: 0x"
          ++ format_x (load_bytes BytesPerInt s.mem
              (NativeNMethodBarrier.ctor vm nm).instruction_address)
          ++ " not an ldr")
      else (true, msg) := rfl

/-- C5, the claim refuted as stated: in a product build the method
`nmethod.example` has its barrier instruction at address 4180.  With the word
0x18000000 there `verify_barrier` succeeds, and after replacing that word by
the different word 0x18000001 it still succeeds. -/
theorem verify_barrier_accepts_changed_word :
    (NativeNMethodBarrier.ctor VM.product nmethod.example).instruction_address = 4180 ∧
    (verify_barrier VM.product nmethod.example
      (State.zero.patch_word 4180 0x18000000) "").1 = true ∧
    (0x18000001 : Int) ≠ 0x18000000 ∧ is_uint32 0x18000001 ∧
    (verify_barrier VM.product nmethod.example
      ((State.zero.patch_word 4180 0x18000000).patch_word 4180 0x18000001) "").1 = true := by
  decide

/-- C5, as amended: when `verify_barrier` succeeds for a method, replacing the
32-bit word at the located instruction address by any 32-bit word whose top
eight bits are not 0x18 makes `verify_barrier` return false with the message
made of that address and the replacement word, and writing the original word
back makes it succeed again, leaving the message buffer alone. -/
theorem verify_barrier_detects_changed_top_byte (vm : VM) (nm : nmethod) (s : State)
    (w : Int) (msg : FormatBuffer)
    (hok : (verify_barrier vm nm s msg).1 = true)
    (hw : is_uint32 w) (hbad : w / 16777216 ≠ 24) :
    verify_barrier vm nm
        (s.patch_word (NativeNMethodBarrier.ctor vm nm).instruction_address w) msg =
      (false, "Addr: " ++ vm.INTPTR_FORMAT (NativeNMethodBarrier.ctor vm nm).instruction_address
        ++ " Code: 0x" ++ format_x w ++ " not an ldr") ∧
    verify_barrier vm nm
        ((s.patch_word (NativeNMethodBarrier.ctor vm nm).instruction_address w).patch_word
          (NativeNMethodBarrier.ctor vm nm).instruction_address
          (load_bytes BytesPerInt s.mem (NativeNMethodBarrier.ctor vm nm).instruction_address))
        msg = (true, msg) := by
  have horig := load_int_is_uint32 s.mem (NativeNMethodBarrier.ctor vm nm).instruction_address
  have hgood : (load_bytes BytesPerInt s.mem
      (NativeNMethodBarrier.ctor vm nm).instruction_address).toNat &&& 0xff000000
        = 0x18000000 := by
    rw [verify_barrier_eq] at hok
    by_contra hc
    rw [if_pos hc] at hok
    exact Bool.false_ne_true hok
  have hfail : w.toNat &&& 0xff000000 ≠ 0x18000000 := by
    rw [Ne, ldr_test_iff_top_byte w hw]
    exact hbad
  constructor
  · rw [verify_barrier_eq, load_patch_word s _ w hw, if_pos hfail]
  · rw [verify_barrier_eq, load_patch_word _ _ _ horig, if_neg (not_not.mpr hgood)]

theorem verify_barrier_detects_changed_top_byte_witness :
    ((verify_barrier VM.product nmethod.example
        (State.zero.patch_word 4180 0x18000000) "").1 = true ∧
      is_uint32 0xd503201f ∧ (0xd503201f : Int) / 16777216 ≠ 24) ∧
    verify_barrier VM.product nmethod.example
        ((State.zero.patch_word 4180 0x18000000).patch_word
          (NativeNMethodBarrier.ctor VM.product nmethod.example).instruction_address
          0xd503201f) "" =
      (false, "Addr: " ++ VM.product.INTPTR_FORMAT
          (NativeNMethodBarrier.ctor VM.product nmethod.example).instruction_address
        ++ " Code: 0x" ++ format_x 0xd503201f ++ " not an ldr") :=
  ⟨⟨by decide, by decide, by decide⟩,
    (verify_barrier_detects_changed_top_byte VM.product nmethod.example
      (State.zero.patch_word 4180 0x18000000) 0xd503201f "" (by decide) (by decide)
      (by decide)).1⟩

/-! ## Deoptimization -/

theorem deoptimize_of_checks_pass (vm : VM) (thread : JavaThread) (nm : nmethod)
    (p : Int) (s : State)
    (h1 : (vm.ASSERT && !(thread.last_frame.is_compiled_frame ||
      thread.last_frame.is_native_frame)) = false)
    (h2 : (vm.ASSERT && !(thread.last_frame.cb == nm.self)) = false) :
    (deoptimize vm thread nm p s).1 = Outcome.returned ∧
    (deoptimize vm thread nm p s).2.mem =
      store_bytes wordSize (store_bytes wordSize (store_bytes wordSize
        (store_bytes wordSize s.mem (p - 40) (thread.sender thread.last_frame).sp)
        (p - 32) (thread.sender thread.last_frame).fp)
        (p - 24) (thread.sender thread.last_frame).pc)
        (p - 16) vm.get_handle_wrong_method_stub ∧
    (deoptimize vm thread nm p s).2.trace = s.trace ++
      [Event.store_pointer (p - 40) (thread.sender thread.last_frame).sp,
       Event.store_pointer (p - 32) (thread.sender thread.last_frame).fp,
       Event.store_pointer (p - 24) (thread.sender thread.last_frame).pc,
       Event.store_pointer (p - 16) vm.get_handle_wrong_method_stub] ∧
    (deoptimize vm thread nm p s).2.patching_epoch = s.patching_epoch := by
  have a0 : p - 5 * (wordSize : Int) + frame_pointers_t.sp = p - 40 := by
    simp [wordSize, frame_pointers_t.sp]
  have a1 : p - 5 * (wordSize : Int) + frame_pointers_t.fp = p - 32 := by
    simp [wordSize, frame_pointers_t.fp]; omega
  have a2 : p - 5 * (wordSize : Int) + frame_pointers_t.lr = p - 24 := by
    simp [wordSize, frame_pointers_t.lr]; omega
  have a3 : p - 5 * (wordSize : Int) + frame_pointers_t.pc = p - 16 := by
    simp [wordSize, frame_pointers_t.pc]; omega
  unfold deoptimize
  simp only [h1, h2, a0, a1, a2, a3]
  cases vm.log_enabled <;> simp [store_pointer]

theorem deoptimize_checks_of_returned (vm : VM) (thread : JavaThread) (nm : nmethod)
    (p : Int) (s : State) (h : (deoptimize vm thread nm p s).1 = Outcome.returned) :
    (vm.ASSERT && !(thread.last_frame.is_compiled_frame ||
      thread.last_frame.is_native_frame)) = false ∧
    (vm.ASSERT && !(thread.last_frame.cb == nm.self)) = false := by
  cases h1 : (vm.ASSERT && !(thread.last_frame.is_compiled_frame ||
      thread.last_frame.is_native_frame))
  · cases h2 : (vm.ASSERT && !(thread.last_frame.cb == nm.self))
    · exact ⟨rfl, rfl⟩
    · unfold deoptimize at h
      simp only [h1, h2] at h
      simp at h
  · unfold deoptimize at h
    simp only [h1] at h
    simp at h

/-- C4: when the top frame of the calling thread is a compiled or native frame
whose code blob is `nm`, and the caller frame has stack pointer `sp0`, frame
pointer `fp0` and program counter `pc0`, then `deoptimize(nm, p)` returns and
afterwards the record five pointer sizes below `p` holds `sp0`, `fp0`, `pc0`
and the address of the handle-wrong-method stub in its fields sp, fp, lr and
pc. -/
theorem deoptimize_rewrites_linkage (vm : VM) (thread : JavaThread) (nm : nmethod)
    (p : Int) (s : State) (sp0 fp0 pc0 : Int)
    (hframe : thread.last_frame.is_compiled_frame = true ∨
      thread.last_frame.is_native_frame = true)
    (hcb : thread.last_frame.cb = nm.self)
    (hcaller : (thread.sender thread.last_frame).sp = sp0 ∧
      (thread.sender thread.last_frame).fp = fp0 ∧
      (thread.sender thread.last_frame).pc = pc0)
    (hsp : is_pointer sp0) (hfp : is_pointer fp0) (hpc : is_pointer pc0)
    (hstub : is_pointer vm.get_handle_wrong_method_stub) :
    (deoptimize vm thread nm p s).1 = Outcome.returned ∧
    load_bytes wordSize (deoptimize vm thread nm p s).2.mem (p - 5 * wordSize) = sp0 ∧
    load_bytes wordSize (deoptimize vm thread nm p s).2.mem (p - 4 * wordSize) = fp0 ∧
    load_bytes wordSize (deoptimize vm thread nm p s).2.mem (p - 3 * wordSize) = pc0 ∧
    load_bytes wordSize (deoptimize vm thread nm p s).2.mem (p - 2 * wordSize) =
      vm.get_handle_wrong_method_stub := by
  have h1 : (vm.ASSERT && !(thread.last_frame.is_compiled_frame ||
      thread.last_frame.is_native_frame)) = false := by
    rcases hframe with h | h <;> simp [h]
  have h2 : (vm.ASSERT && !(thread.last_frame.cb == nm.self)) = false := by
    simp [hcb]
  obtain ⟨hret, hmem, -, -⟩ := deoptimize_of_checks_pass vm thread nm p s h1 h2
  obtain ⟨e1, e2, e3⟩ := hcaller
  rw [e1, e2, e3] at hmem
  have w5 : p - 5 * (wordSize : Int) = p - 40 := by simp [wordSize]
  have w4 : p - 4 * (wordSize : Int) = p - 32 := by simp [wordSize]
  have w3 : p - 3 * (wordSize : Int) = p - 24 := by simp [wordSize]
  have w2 : p - 2 * (wordSize : Int) = p - 16 := by simp [wordSize]
  have ws : ((wordSize : Nat) : Int) = 8 := by simp [wordSize]
  rw [hmem, w5, w4, w3, w2]
  refine ⟨hret, ?_, ?_, ?_, ?_⟩
  · rw [load_bytes_store_bytes_disjoint _ _ _ _ _ _ (by rw [ws]; omega),
      load_bytes_store_bytes_disjoint _ _ _ _ _ _ (by rw [ws]; omega),
      load_bytes_store_bytes_disjoint _ _ _ _ _ _ (by rw [ws]; omega)]
    exact load_pointer_store_pointer _ _ _ hsp
  · rw [load_bytes_store_bytes_disjoint _ _ _ _ _ _ (by rw [ws]; omega),
      load_bytes_store_bytes_disjoint _ _ _ _ _ _ (by rw [ws]; omega)]
    exact load_pointer_store_pointer _ _ _ hfp
  · rw [load_bytes_store_bytes_disjoint _ _ _ _ _ _ (by rw [ws]; omega)]
    exact load_pointer_store_pointer _ _ _ hpc
  · exact load_pointer_store_pointer _ _ _ hstub

theorem deoptimize_rewrites_linkage_witness :
    ((JavaThread.example.last_frame.is_compiled_frame = true ∨
        JavaThread.example.last_frame.is_native_frame = true) ∧
      JavaThread.example.last_frame.cb = nmethod.example.self ∧
      is_pointer 3000 ∧ is_pointer 3016 ∧ is_pointer 9000 ∧
      is_pointer VM.debug.get_handle_wrong_method_stub) ∧
    (deoptimize VM.debug JavaThread.example nmethod.example 1000 State.zero).1 =
      Outcome.returned ∧
    load_bytes wordSize
      (deoptimize VM.debug JavaThread.example nmethod.example 1000 State.zero).2.mem
      (1000 - 5 * wordSize) = 3000 ∧
    load_bytes wordSize
      (deoptimize VM.debug JavaThread.example nmethod.example 1000 State.zero).2.mem
      (1000 - 4 * wordSize) = 3016 ∧
    load_bytes wordSize
      (deoptimize VM.debug JavaThread.example nmethod.example 1000 State.zero).2.mem
      (1000 - 3 * wordSize) = 9000 ∧
    load_bytes wordSize
      (deoptimize VM.debug JavaThread.example nmethod.example 1000 State.zero).2.mem
      (1000 - 2 * wordSize) = VM.debug.get_handle_wrong_method_stub :=
  ⟨⟨by decide, by decide, by decide, by decide, by decide, by decide⟩,
    deoptimize_rewrites_linkage VM.debug JavaThread.example nmethod.example 1000 State.zero
      3000 3016 9000 (by decide) (by decide) ⟨rfl, rfl, rfl⟩ (by decide) (by decide)
      (by decide) (by decide)⟩

/-- C7, the claim refuted as stated: in a product build, where `assert` expands
to nothing, `deoptimize` called on a thread whose top frame is neither compiled
nor native and belongs to no code blob returns normally and has overwritten the
record below the slot: the word at 1000 - 16 changed from 0 to the stub
address. -/
theorem deoptimize_unchecked_without_asserts :
    VM.product.ASSERT = false ∧
    JavaThread.interpreted.last_frame.is_compiled_frame = false ∧
    JavaThread.interpreted.last_frame.is_native_frame = false ∧
    JavaThread.interpreted.last_frame.cb ≠ nmethod.example.self ∧
    (deoptimize VM.product JavaThread.interpreted nmethod.example 1000 State.zero).1 =
      Outcome.returned ∧
    load_bytes wordSize State.zero.mem (1000 - 16) = 0 ∧
    load_bytes wordSize
      (deoptimize VM.product JavaThread.interpreted nmethod.example 1000 State.zero).2.mem
      (1000 - 16) = 65536 := by
  decide

/-- C7, as amended: in a build with `assert` compiled in, if the top frame of
the calling thread is neither a compiled nor a native frame, or its code blob
is not `nm`, then `deoptimize(nm, p)` stops with a failed assertion and the
state at that point is the state it was called in: nothing was written. -/
theorem deoptimize_asserts_frame (vm : VM) (thread : JavaThread) (nm : nmethod)
    (p : Int) (s : State) (hassert : vm.ASSERT = true)
    (hbad : (thread.last_frame.is_compiled_frame = false ∧
        thread.last_frame.is_native_frame = false) ∨
      thread.last_frame.cb ≠ nm.self) :
    (∃ detail, (deoptimize vm thread nm p s).1 = Outcome.fatal detail) ∧
    (deoptimize vm thread nm p s).2 = s := by
  cases h1 : (vm.ASSERT && !(thread.last_frame.is_compiled_frame ||
      thread.last_frame.is_native_frame))
  · have h2 : (vm.ASSERT && !(thread.last_frame.cb == nm.self)) = true := by
      rcases hbad with ⟨hc, hn⟩ | hcb
      · simp [hassert, hc, hn] at h1
      · simp [hassert, hcb]
    unfold deoptimize
    simp only [h1, h2]
    simp
  · unfold deoptimize
    simp only [h1]
    simp

theorem deoptimize_asserts_frame_witness :
    (VM.debug.ASSERT = true ∧
      ((JavaThread.interpreted.last_frame.is_compiled_frame = false ∧
          JavaThread.interpreted.last_frame.is_native_frame = false) ∨
        JavaThread.interpreted.last_frame.cb ≠ nmethod.example.self)) ∧
    (∃ detail, (deoptimize VM.debug JavaThread.interpreted nmethod.example 1000
      State.zero).1 = Outcome.fatal detail) ∧
    (deoptimize VM.debug JavaThread.interpreted nmethod.example 1000 State.zero).2 =
      State.zero :=
  ⟨⟨by decide, by decide⟩,
    deoptimize_asserts_frame VM.debug JavaThread.interpreted nmethod.example 1000 State.zero
      (by decide) (by decide)⟩

/-- C10: when `deoptimize(nm, p)` returns, the stores it performed are exactly
four pointer-sized stores, to the words five, four, three and two pointer sizes
below `p`, holding the caller frame's sp, fp, pc and the stub address in that
order; every byte outside those four words is unchanged, so every other
pointer-sized word at a whole number of words from `p`, in particular the slot
at `p` and the word just below it, reads as before. -/
theorem deoptimize_frame_effect (vm : VM) (thread : JavaThread) (nm : nmethod)
    (p : Int) (s : State) (h : (deoptimize vm thread nm p s).1 = Outcome.returned) :
    events_since s (deoptimize vm thread nm p s).2 =
      [Event.store_pointer (p - 5 * wordSize) (thread.sender thread.last_frame).sp,
       Event.store_pointer (p - 4 * wordSize) (thread.sender thread.last_frame).fp,
       Event.store_pointer (p - 3 * wordSize) (thread.sender thread.last_frame).pc,
       Event.store_pointer (p - 2 * wordSize) vm.get_handle_wrong_method_stub] ∧
    (∀ a : Int, a < p - 5 * wordSize ∨ p - 1 * wordSize ≤ a →
      (deoptimize vm thread nm p s).2.mem a = s.mem a) ∧
    (∀ k : Int, k < -5 ∨ -2 < k →
      load_bytes wordSize (deoptimize vm thread nm p s).2.mem (p + k * wordSize) =
        load_bytes wordSize s.mem (p + k * wordSize)) ∧
    load_bytes wordSize (deoptimize vm thread nm p s).2.mem p = load_bytes wordSize s.mem p ∧
    load_bytes wordSize (deoptimize vm thread nm p s).2.mem (p - 1 * wordSize) =
      load_bytes wordSize s.mem (p - 1 * wordSize) := by
  obtain ⟨h1, h2⟩ := deoptimize_checks_of_returned vm thread nm p s h
  obtain ⟨-, hmem, htrace, -⟩ := deoptimize_of_checks_pass vm thread nm p s h1 h2
  have ws : ((wordSize : Nat) : Int) = 8 := by simp [wordSize]
  have bytes : ∀ a : Int, a < p - 40 ∨ p - 8 ≤ a →
      (deoptimize vm thread nm p s).2.mem a = s.mem a := by
    intro a ha
    rw [hmem, store_bytes_outside _ _ _ _ _ (by rw [ws]; omega),
      store_bytes_outside _ _ _ _ _ (by rw [ws]; omega),
      store_bytes_outside _ _ _ _ _ (by rw [ws]; omega),
      store_bytes_outside _ _ _ _ _ (by rw [ws]; omega)]
  have words : ∀ b : Int, b + 8 ≤ p - 40 ∨ p - 8 ≤ b →
      load_bytes wordSize (deoptimize vm thread nm p s).2.mem b =
        load_bytes wordSize s.mem b := by
    intro b hb
    apply load_bytes_congr
    intro x hx1 hx2
    rw [ws] at hx2
    exact bytes x (by omega)
  rw [ws]
  refine ⟨?_, ?_, ?_, ?_, ?_⟩
  · apply events_since_append
    rw [htrace]
    norm_num
  · intro a ha
    exact bytes a (by omega)
  · intro k hk
    exact words _ (by omega)
  · exact words _ (by omega)
  · exact words _ (by omega)

theorem deoptimize_frame_effect_witness :
    (deoptimize VM.debug JavaThread.example nmethod.example 1000 State.zero).1 =
      Outcome.returned ∧
    events_since State.zero
        (deoptimize VM.debug JavaThread.example nmethod.example 1000 State.zero).2 =
      [Event.store_pointer 960 3000, Event.store_pointer 968 3016,
       Event.store_pointer 976 9000, Event.store_pointer 984 65536] ∧
    load_bytes wordSize
      (deoptimize VM.debug JavaThread.example nmethod.example 1000 State.zero).2.mem 1000 =
      load_bytes wordSize State.zero.mem 1000 :=
  ⟨by decide,
    (deoptimize_frame_effect VM.debug JavaThread.example nmethod.example 1000 State.zero
      (by decide)).1,
    (deoptimize_frame_effect VM.debug JavaThread.example nmethod.example 1000 State.zero
      (by decide)).2.2.2.1⟩

end BarrierSetNMethod
